import Mathlib

/-!
Verification of the bncclient repository (a Go client for the Binance
market-data REST API) against its natural-language specification.

The repository contains several historical revisions of the same component:

* `bncclient.go` (first part): `RequestWeightController` with the method
  `getSleepTimeAndUpdateAccumulatedWeight` (weight limit 999, strict
  60000 ms window test) and a `makeApiRequest` that sleeps for the hint
  and then always performs the HTTP call.
* `bncclient.go` (appended part) together with `unnamed/part_000`:
  `weightController.getSleepTime` (weight limit 1200, window test with
  `<=`) and a `makeApiRequest` that returns a budget warning without
  touching the transport when the hint is positive.  This revision is
  embedded below in the namespace `Rev0`.
* `unnamed/part_001`: a revision without any weight controller; only its
  `GetOrderBook` limit validation (`inArray`) is needed here, embedded in
  the namespace `Rev1`.

Timestamps and weights are modelled as `Int` (Go `int64` / `int`; no value
in any claim approaches 2^63, so plain integers are a faithful model).
Mutation of the controller is modelled by explicit state passing: each
operation takes the state and the current timestamp in milliseconds and
returns the result together with the new state.  The HTTP transport and
the JSON unmarshaller are external collaborators and enter as oracle
arguments describing their outcome.
-/

namespace BncClient

/-- State of the weight controllers: both `RequestWeightController` of
`bncclient.go` and `weightController` of the appended revision hold the
accumulated weight of the current window and the timestamp (ms) at which
the window started.  The mutex only serializes calls and has no effect on
the sequential semantics modelled here. -/
structure WCState where
  lastMinuteAccumulatedWeight : Int
  timestampOfZeroOutWeightMS : Int
deriving DecidableEq

/-- Embedding of `RequestWeightController.getSleepTimeAndUpdateAccumulatedWeight`
(bncclient.go, first part).  Returns the recommended sleep time (ms) and
the updated state.  The branch structure, including the unreachable inner
reset in the second branch, mirrors the Go source; the limit constant is
the literal 999 used there. -/
def getSleepTimeAndUpdateAccumulatedWeight (wc : WCState)
    (currentTimestampMS requestWeight : Int) : Int × WCState :=
  if wc.lastMinuteAccumulatedWeight < 999 ∧
      currentTimestampMS - wc.timestampOfZeroOutWeightMS < 60 * 1000 then
    (0, ⟨wc.lastMinuteAccumulatedWeight + requestWeight, wc.timestampOfZeroOutWeightMS⟩)
  else if 999 ≤ wc.lastMinuteAccumulatedWeight ∧
      currentTimestampMS - wc.timestampOfZeroOutWeightMS < 60 * 1000 then
    (60 * 1000 - (currentTimestampMS - wc.timestampOfZeroOutWeightMS),
      if 60 * 1000 ≤ currentTimestampMS - wc.timestampOfZeroOutWeightMS then
        ⟨requestWeight, currentTimestampMS⟩
      else wc)
  else
    (0, ⟨requestWeight, currentTimestampMS⟩)

namespace Rev0

/-- Constant `weightLimitPerMinute` of the appended revision of bncclient.go. -/
def weightLimitPerMinute : Int := 1200

/-- Constant `sessionDurationMS` of the appended revision of bncclient.go. -/
def sessionDurationMS : Int := 60 * 1000

/-- Embedding of `weightController.getSleepTime` (appended revision of
bncclient.go, used by the gateway of unnamed/part_000).  Note the window
test uses `<=` where `getSleepTimeAndUpdateAccumulatedWeight` uses `<`. -/
def getSleepTime (wc : WCState) (currentTimestampMS requestWeight : Int) :
    Int × WCState :=
  if wc.lastMinuteAccumulatedWeight < weightLimitPerMinute ∧
      currentTimestampMS - wc.timestampOfZeroOutWeightMS ≤ sessionDurationMS then
    (0, ⟨wc.lastMinuteAccumulatedWeight + requestWeight, wc.timestampOfZeroOutWeightMS⟩)
  else if weightLimitPerMinute ≤ wc.lastMinuteAccumulatedWeight ∧
      currentTimestampMS - wc.timestampOfZeroOutWeightMS ≤ sessionDurationMS then
    (sessionDurationMS - (currentTimestampMS - wc.timestampOfZeroOutWeightMS), wc)
  else
    (0, ⟨requestWeight, currentTimestampMS⟩)

end Rev0

/-- Outcome of the external HTTP transport for one request, an oracle
argument of the gateway models: `client.Do` fails (DNS/connect/timeout),
or the response body cannot be read, or a response arrives with a status
code, an optional parsed `Retry-After` header (the Go code applies
`strconv.Atoi` to the header and ignores the error, so an absent or
unparsable header reads as 0 — modelled by `Option Nat` with `getD 0`)
and the raw body bytes. -/
inductive TransportResult
  | failure
  | readFailure
  | response (statusCode : Nat) (retryAfterHeader : Option Nat) (body : List UInt8)
deriving DecidableEq

/-- Observable effects of one `makeApiRequest` call of the bncclient.go
revision: how many ms the function slept before the HTTP call and how
many times the transport was invoked. -/
structure RequestEffects where
  sleptMS : Int
  transportCalls : Nat
deriving DecidableEq

/-- Collapsed 4-tuple `([]byte, statusCode, retryAfter, error)` returned by
`makeApiRequest` in bncclient.go: `transportError` stands for the paths that
return a non-nil error with zeroed other components, `ok` for the normal
return of raw body, status code and parsed Retry-After value. -/
inductive ApiResponse
  | transportError
  | ok (body : List UInt8) (statusCode : Nat) (retryAfter : Nat)
deriving DecidableEq

/-- Embedding of `BinanceClient.makeApiRequest` from bncclient.go: it first
calls the weight controller, sleeps for the returned hint, and then always
performs the HTTP call; the response is passed through with its status
code and Retry-After header, unclassified, and a transport or body-read
failure is returned as an error. -/
def makeApiRequest (wc : WCState) (now weight : Int) (transport : TransportResult) :
    ApiResponse × WCState × RequestEffects :=
  let r := getSleepTimeAndUpdateAccumulatedWeight wc now weight
  match transport with
  | .failure => (.transportError, r.2, ⟨r.1, 1⟩)
  | .readFailure => (.transportError, r.2, ⟨r.1, 1⟩)
  | .response status hdr body => (.ok body status (hdr.getD 0), r.2, ⟨r.1, 1⟩)

namespace Rev0

/-- Collapsed 4-tuple `([]byte, retryAfterMS, warning, error)` returned by
`makeApiRequest` in unnamed/part_000: `budgetWarning` is the warning
returned before any HTTP call when the sleep hint is positive;
`panicked` models the nil-pointer dereference in
`defer rawResponse.Body.Close()` when `client.Do` failed (the deferred
receiver `rawResponse.Body` is evaluated on a nil response);
`readError` is the non-nil error returned when reading the body fails;
`rateLimitWarning` is the warning for status 429 with a positive
Retry-After; `ok` is the normal return of body and Retry-After in ms. -/
inductive ApiResult
  | budgetWarning (retryAfterMS : Int)
  | panicked
  | readError
  | rateLimitWarning (retryAfterMS : Int)
  | ok (body : List UInt8) (retryAfterMS : Int)
deriving DecidableEq

/-- Embedding of `BinanceClient.makeApiRequest` from unnamed/part_000.
Returns the collapsed result, the weight controller state after the call,
and the number of times the transport was invoked. -/
def makeApiRequest (wc : WCState) (now weight : Int) (transport : TransportResult) :
    ApiResult × WCState × Nat :=
  let r := getSleepTime wc now weight
  if 0 < r.1 then
    (.budgetWarning r.1, r.2, 0)
  else
    match transport with
    | .failure => (.panicked, r.2, 1)
    | .readFailure => (.readError, r.2, 1)
    | .response status hdr body =>
      let retryAfterMS : Int := (hdr.getD 0 : Int) * 1000
      if status = 429 ∧ 0 < retryAfterMS then
        (.rateLimitWarning retryAfterMS, r.2, 1)
      else
        (.ok body retryAfterMS, r.2, 1)

end Rev0

/-- Binance error envelope `{code, msg}` (struct `binanceError`). -/
structure binanceError where
  Code : Int
  Msg : String
deriving DecidableEq

/-- Result of `tryParseResponse`: nil error, the envelope error carrying
code and message, or the original unmarshal failure. -/
inductive ParseResult
  | success
  | binanceApiError (code : Int) (msg : String)
  | originalFailure (e : String)
deriving DecidableEq

/-- Embedding of `tryParseResponse` (identical logic in bncclient.go and
unnamed/part_000).  The JSON unmarshaller is an external collaborator, so
its two attempts on the raw body enter as oracles: `firstAttempt` is
`some e` when unmarshalling into the target structure failed with error
`e` (none on success), `envelopeAttempt` is `some be` when unmarshalling
into `binanceError` succeeded (none when it failed). -/
def tryParseResponse (firstAttempt : Option String)
    (envelopeAttempt : Option binanceError) : ParseResult :=
  match firstAttempt with
  | none => .success
  | some err =>
    match envelopeAttempt with
    | none => .originalFailure err
    | some be => .binanceApiError be.Code be.Msg

/-- Query parameters built by `GetRecentTrades` (all revisions build the
same map; a list of key-value pairs with distinct keys models the Go map,
and `toString` on a nonnegative `Int` is its decimal digits, matching
`strconv.Itoa`). -/
def getRecentTradesQueryParams (symbol : String) (limit : Int) :
    List (String × String) :=
  [("symbol", symbol)] ++ (if 0 ≤ limit then [("limit", toString limit)] else [])

/-- Query parameters built by `GetHistoricalTrades`. -/
def getHistoricalTradesQueryParams (symbol : String) (limit fromId : Int) :
    List (String × String) :=
  [("symbol", symbol)]
    ++ (if 0 ≤ limit then [("limit", toString limit)] else [])
    ++ (if 0 ≤ fromId then [("fromId", toString fromId)] else [])

/-- Query parameters built by `GetAggregatedTrades`, in the insertion
order of the source (symbol, startTime, endTime, fromId, limit). -/
def getAggregatedTradesQueryParams (symbol : String)
    (fromId startTimeMS endTimeMS limit : Int) : List (String × String) :=
  [("symbol", symbol)]
    ++ (if 0 ≤ startTimeMS then [("startTime", toString startTimeMS)] else [])
    ++ (if 0 ≤ endTimeMS then [("endTime", toString endTimeMS)] else [])
    ++ (if 0 ≤ fromId then [("fromId", toString fromId)] else [])
    ++ (if 0 ≤ limit then [("limit", toString limit)] else [])

/-- Query parameters built by `GetOrderBook` (after the limit validation). -/
def getOrderBookQueryParams (symbol : String) (limit : Int) :
    List (String × String) :=
  [("symbol", symbol)] ++ (if 0 ≤ limit then [("limit", toString limit)] else [])

/-- The `limitToWeightMap` literal of `GetOrderBook` (bncclient.go and
unnamed/part_000): a lookup in the Go map, `none` for keys not present. -/
def limitToWeightMap (limit : Int) : Option Int :=
  if limit = -1 then some 1
  else if limit = 5 then some 1
  else if limit = 10 then some 1
  else if limit = 20 then some 1
  else if limit = 50 then some 1
  else if limit = 100 then some 1
  else if limit = 500 then some 5
  else if limit = 1000 then some 10
  else if limit = 5000 then some 50
  else none

/-- What `GetOrderBook` does before any weight is reserved and any HTTP
request is made: either it panics on an invalid limit (carrying neither a
request nor a weight, since the panic happens before `makeApiRequest` is
reached), or it proceeds to call `makeApiRequest` with the built query
parameters and the weight from `limitToWeightMap`. -/
inductive GetOrderBookCall
  | panicked
  | request (queryParams : List (String × String)) (weight : Int)
deriving DecidableEq

/-- Embedding of the pre-transport phase of `GetOrderBook` (bncclient.go):
the limit validation followed by construction of the request. -/
def getOrderBookPrepare (symbol : String) (limit : Int) : GetOrderBookCall :=
  match limitToWeightMap limit with
  | none => .panicked
  | some w => .request (getOrderBookQueryParams symbol limit) w

namespace Rev1

/-- Literal list of allowed order book limits in unnamed/part_001. -/
def allowedLimits : List Int := [-1, 5, 10, 20, 50, 100, 500, 1000, 5000]

/-- Embedding of the local `inArray` helper of `GetOrderBook` in
unnamed/part_001: a linear scan for the value. -/
def inArray (value : Int) (heap : List Int) : Bool :=
  heap.any fun x => x == value

end Rev1

/-- Sum of the weights of a list of reserve calls (each call is a pair of
current timestamp in ms and requested weight). -/
def weightsSum : List (Int × Int) → Int
  | [] => 0
  | c :: rest => c.2 + weightsSum rest

/-- Runs a sequence of reserve calls against
`getSleepTimeAndUpdateAccumulatedWeight`, threading the state; returns
the sleep hints in call order and the final state. -/
def reserveSeq (wc : WCState) : List (Int × Int) → List Int × WCState
  | [] => ([], wc)
  | c :: rest =>
    let r := getSleepTimeAndUpdateAccumulatedWeight wc c.1 c.2
    let tail := reserveSeq r.2 rest
    (r.1 :: tail.1, tail.2)

namespace Rev0

/-- Runs a sequence of reserve calls against `getSleepTime`, threading the
state; returns the sleep hints in call order and the final state. -/
def reserveSeq (wc : WCState) : List (Int × Int) → List Int × WCState
  | [] => ([], wc)
  | c :: rest =>
    let r := getSleepTime wc c.1 c.2
    let tail := reserveSeq r.2 rest
    (r.1 :: tail.1, tail.2)

end Rev0

/-! ### Branch lemmas for the two weight controllers -/

/-- While the window is current and the accumulated weight is below 999,
`getSleepTimeAndUpdateAccumulatedWeight` admits the request: hint 0, the
weight is added, the window start is kept. -/
lemma reserve_admit (wc : WCState) (now w : Int)
    (ha : wc.lastMinuteAccumulatedWeight < 999)
    (hel : now - wc.timestampOfZeroOutWeightMS < 60000) :
    getSleepTimeAndUpdateAccumulatedWeight wc now w
      = (0, ⟨wc.lastMinuteAccumulatedWeight + w, wc.timestampOfZeroOutWeightMS⟩) := by
  unfold getSleepTimeAndUpdateAccumulatedWeight
  split_ifs with h1 h2 h3 <;> first | rfl | (exfalso; omega)

/-- While the window is current and the accumulated weight has reached 999,
`getSleepTimeAndUpdateAccumulatedWeight` rejects the request: the hint is
the remainder of the window and the state is untouched. -/
lemma reserve_reject (wc : WCState) (now w : Int)
    (ha : 999 ≤ wc.lastMinuteAccumulatedWeight)
    (hel : now - wc.timestampOfZeroOutWeightMS < 60000) :
    getSleepTimeAndUpdateAccumulatedWeight wc now w
      = (60000 - (now - wc.timestampOfZeroOutWeightMS), wc) := by
  unfold getSleepTimeAndUpdateAccumulatedWeight
  split_ifs with h1 h2 h3 <;> first | rfl | (exfalso; omega)

/-- Once the window has expired (elapsed at least 60000 ms),
`getSleepTimeAndUpdateAccumulatedWeight` starts a new window. -/
lemma reserve_reset (wc : WCState) (now w : Int)
    (hel : 60000 ≤ now - wc.timestampOfZeroOutWeightMS) :
    getSleepTimeAndUpdateAccumulatedWeight wc now w = (0, ⟨w, now⟩) := by
  unfold getSleepTimeAndUpdateAccumulatedWeight
  split_ifs with h1 h2 h3 <;> first | rfl | (exfalso; omega)

/-- Admission branch of `Rev0.getSleepTime` (limit 1200, window test with
`<=`). -/
lemma reserve_admit0 (wc : WCState) (now w : Int)
    (ha : wc.lastMinuteAccumulatedWeight < 1200)
    (hel : now - wc.timestampOfZeroOutWeightMS ≤ 60000) :
    Rev0.getSleepTime wc now w
      = (0, ⟨wc.lastMinuteAccumulatedWeight + w, wc.timestampOfZeroOutWeightMS⟩) := by
  unfold Rev0.getSleepTime Rev0.weightLimitPerMinute Rev0.sessionDurationMS
  split_ifs with h1 h2 <;> first | rfl | (exfalso; omega)

/-- Rejection branch of `Rev0.getSleepTime`. -/
lemma reserve_reject0 (wc : WCState) (now w : Int)
    (ha : 1200 ≤ wc.lastMinuteAccumulatedWeight)
    (hel : now - wc.timestampOfZeroOutWeightMS ≤ 60000) :
    Rev0.getSleepTime wc now w
      = (60000 - (now - wc.timestampOfZeroOutWeightMS), wc) := by
  unfold Rev0.getSleepTime Rev0.weightLimitPerMinute Rev0.sessionDurationMS
  split_ifs with h1 h2 <;> first | rfl | (exfalso; omega)

/-- Reset branch of `Rev0.getSleepTime`: it starts a new window only once
the elapsed time strictly exceeds 60000 ms. -/
lemma reserve_reset0 (wc : WCState) (now w : Int)
    (hel : 60000 < now - wc.timestampOfZeroOutWeightMS) :
    Rev0.getSleepTime wc now w = (0, ⟨w, now⟩) := by
  unfold Rev0.getSleepTime Rev0.weightLimitPerMinute Rev0.sessionDurationMS
  split_ifs with h1 h2 <;> first | rfl | (exfalso; omega)

/-- Weights of a list of positive-weight calls sum to a nonnegative value. -/
lemma weightsSum_nonneg (calls : List (Int × Int))
    (hw : ∀ c ∈ calls, 0 < c.2) : 0 ≤ weightsSum calls := by
  induction calls with
  | nil => simp [weightsSum]
  | cons c rest ih =>
    have h1 := hw c (List.mem_cons_self c rest)
    have h2 := ih fun d hd => hw d (List.mem_cons_of_mem c hd)
    simp only [weightsSum]
    omega

/-- Unfolding step of `reserveSeq` on a nonempty call list. -/
lemma reserveSeq_cons (wc : WCState) (c : Int × Int) (rest : List (Int × Int)) :
    reserveSeq wc (c :: rest)
      = ((getSleepTimeAndUpdateAccumulatedWeight wc c.1 c.2).1
           :: (reserveSeq (getSleepTimeAndUpdateAccumulatedWeight wc c.1 c.2).2 rest).1,
         (reserveSeq (getSleepTimeAndUpdateAccumulatedWeight wc c.1 c.2).2 rest).2) := rfl

/-- Unfolding step of `Rev0.reserveSeq` on a nonempty call list. -/
lemma reserveSeq0_cons (wc : WCState) (c : Int × Int) (rest : List (Int × Int)) :
    Rev0.reserveSeq wc (c :: rest)
      = ((Rev0.getSleepTime wc c.1 c.2).1
           :: (Rev0.reserveSeq (Rev0.getSleepTime wc c.1 c.2).2 rest).1,
         (Rev0.reserveSeq (Rev0.getSleepTime wc c.1 c.2).2 rest).2) := rfl

/-- Generalized budget monotonicity for
`getSleepTimeAndUpdateAccumulatedWeight`: starting from accumulated `a`
inside the current window, a call sequence of positive weights whose sum
keeps the total within 999 is admitted entirely, accumulating the sum. -/
lemma reserveSeq_admits (calls : List (Int × Int)) :
    ∀ a t0 : Int, (∀ c ∈ calls, 0 < c.2) → (∀ c ∈ calls, c.1 - t0 < 60000) →
      a + weightsSum calls ≤ 999 →
      reserveSeq ⟨a, t0⟩ calls
        = (List.replicate calls.length 0, ⟨a + weightsSum calls, t0⟩) := by
  induction calls with
  | nil => intro a t0 _ _ _; simp [reserveSeq, weightsSum]
  | cons c rest ih =>
    intro a t0 hw ht hsum
    have hc : 0 < c.2 := hw c (List.mem_cons_self c rest)
    have hrest : 0 ≤ weightsSum rest :=
      weightsSum_nonneg rest fun d hd => hw d (List.mem_cons_of_mem c hd)
    have hsum1 : a + (c.2 + weightsSum rest) ≤ 999 := hsum
    have ha : a < 999 := by omega
    rw [reserveSeq_cons,
      reserve_admit ⟨a, t0⟩ c.1 c.2 ha (ht c (List.mem_cons_self c rest))]
    rw [ih (a + c.2) t0 (fun d hd => hw d (List.mem_cons_of_mem c hd))
      (fun d hd => ht d (List.mem_cons_of_mem c hd)) (by omega)]
    simp only [List.length_cons, List.replicate_succ, weightsSum, Prod.mk.injEq,
      List.cons.injEq, WCState.mk.injEq, and_true, true_and]
    omega

/-- Generalized budget monotonicity for `Rev0.getSleepTime` (limit 1200). -/
lemma reserveSeq0_admits (calls : List (Int × Int)) :
    ∀ a t0 : Int, (∀ c ∈ calls, 0 < c.2) → (∀ c ∈ calls, c.1 - t0 < 60000) →
      a + weightsSum calls ≤ 1200 →
      Rev0.reserveSeq ⟨a, t0⟩ calls
        = (List.replicate calls.length 0, ⟨a + weightsSum calls, t0⟩) := by
  induction calls with
  | nil => intro a t0 _ _ _; simp [Rev0.reserveSeq, weightsSum]
  | cons c rest ih =>
    intro a t0 hw ht hsum
    have hc : 0 < c.2 := hw c (List.mem_cons_self c rest)
    have hrest : 0 ≤ weightsSum rest :=
      weightsSum_nonneg rest fun d hd => hw d (List.mem_cons_of_mem c hd)
    have hsum1 : a + (c.2 + weightsSum rest) ≤ 1200 := hsum
    have ha : a < 1200 := by omega
    have hel : c.1 - t0 ≤ 60000 := by
      have := ht c (List.mem_cons_self c rest); omega
    rw [reserveSeq0_cons, reserve_admit0 ⟨a, t0⟩ c.1 c.2 ha hel]
    rw [ih (a + c.2) t0 (fun d hd => hw d (List.mem_cons_of_mem c hd))
      (fun d hd => ht d (List.mem_cons_of_mem c hd)) (by omega)]
    simp only [List.length_cons, List.replicate_succ, weightsSum, Prod.mk.injEq,
      List.cons.injEq, WCState.mk.injEq, and_true, true_and]
    omega

/-! ### Claim theorems for the weight controller -/

/-- C4: for every finite sequence of reserve calls with positive weights,
all issued within a single window (elapsed time below the window length)
and whose weights sum to at most the configured limit (999 for
`getSleepTimeAndUpdateAccumulatedWeight`, 1200 for `Rev0.getSleepTime`),
every call returns sleep hint 0 and the final accumulated weight equals
the sum of the weights (the window start is also unchanged). -/
theorem budget_monotonicity (t0 : Int) (calls : List (Int × Int))
    (hw : ∀ c ∈ calls, 0 < c.2) (ht : ∀ c ∈ calls, c.1 - t0 < 60000) :
    (weightsSum calls ≤ 999 →
        reserveSeq ⟨0, t0⟩ calls
          = (List.replicate calls.length 0, ⟨weightsSum calls, t0⟩))
    ∧ (weightsSum calls ≤ 1200 →
        Rev0.reserveSeq ⟨0, t0⟩ calls
          = (List.replicate calls.length 0, ⟨weightsSum calls, t0⟩)) := by
  constructor
  · intro hs
    have h := reserveSeq_admits calls 0 t0 hw ht (by omega)
    simpa using h
  · intro hs
    have h := reserveSeq0_admits calls 0 t0 hw ht (by omega)
    simpa using h

/-- Witness for C4: two calls of weights 500 and 499 inside one window are
both admitted by both controllers and accumulate to 999. -/
theorem budget_monotonicity_witness :
    reserveSeq ⟨0, 0⟩ [(0, 500), (5, 499)]
      = (List.replicate (List.length [((0:Int), (500:Int)), (5, 499)]) 0,
         ⟨weightsSum [(0, 500), (5, 499)], 0⟩)
    ∧ Rev0.reserveSeq ⟨0, 0⟩ [(0, 500), (5, 499)]
      = (List.replicate (List.length [((0:Int), (500:Int)), (5, 499)]) 0,
         ⟨weightsSum [(0, 500), (5, 499)], 0⟩) := by
  have h := budget_monotonicity 0 [(0, 500), (5, 499)] (by decide) (by decide)
  exact ⟨h.1 (by decide), h.2 (by decide)⟩

/-- C1 counterexample: with accumulated weight 998 (below the limit 999)
and a request of weight 2, the sum 1000 would exceed the limit inside the
current window, yet `getSleepTimeAndUpdateAccumulatedWeight` returns
sleep hint 0 and mutates accumulated to 1000; likewise for
`Rev0.getSleepTime` with 1199 + 2 against the limit 1200.  The claim that
such a call returns a positive hint and leaves the state unchanged is
therefore false. -/
theorem budget_rejection_cex :
    ((999:Int) < 998 + 2 ∧ (0:Int) - 0 < 60000
      ∧ getSleepTimeAndUpdateAccumulatedWeight ⟨998, 0⟩ 0 2 = (0, ⟨1000, 0⟩))
    ∧ ((1200:Int) < 1199 + 2 ∧ (0:Int) - 0 ≤ 60000
      ∧ Rev0.getSleepTime ⟨1199, 0⟩ 0 2 = (0, ⟨1201, 0⟩)) := by decide

/-- C1 (amended): within the current window, a reserve call with positive
weight is rejected — positive sleep hint equal to the window remainder,
state unchanged — precisely when the accumulated weight has already
reached the limit (999 resp. 1200); a call made while accumulated is
below the limit is admitted even when accumulated + w overshoots it. -/
theorem budget_rejection (wc : WCState) (now w : Int) (hw : 0 < w)
    (hel : now - wc.timestampOfZeroOutWeightMS < 60000) :
    (999 ≤ wc.lastMinuteAccumulatedWeight →
        getSleepTimeAndUpdateAccumulatedWeight wc now w
          = (60000 - (now - wc.timestampOfZeroOutWeightMS), wc)
        ∧ 0 < 60000 - (now - wc.timestampOfZeroOutWeightMS))
    ∧ (1200 ≤ wc.lastMinuteAccumulatedWeight →
        Rev0.getSleepTime wc now w
          = (60000 - (now - wc.timestampOfZeroOutWeightMS), wc)
        ∧ 0 < 60000 - (now - wc.timestampOfZeroOutWeightMS)) :=
  ⟨fun ha => ⟨reserve_reject wc now w ha hel, by omega⟩,
   fun ha => ⟨reserve_reject0 wc now w ha (by omega), by omega⟩⟩

/-- Witness for C1: a controller at accumulated weight 1300, half way
through the window, rejects a request of weight 5 in both revisions. -/
theorem budget_rejection_witness :
    getSleepTimeAndUpdateAccumulatedWeight ⟨1300, 0⟩ 30000 5
      = (60000 - ((30000:Int) - 0), ⟨1300, 0⟩)
    ∧ Rev0.getSleepTime ⟨1300, 0⟩ 30000 5
      = (60000 - ((30000:Int) - 0), ⟨1300, 0⟩) := by
  have h := budget_rejection ⟨1300, 0⟩ 30000 5 (by decide) (by decide)
  exact ⟨(h.1 (by decide)).1, (h.2 (by decide)).1⟩

/-- C5 counterexample: at elapsed time exactly equal to the window length
(60000 ms), `Rev0.getSleepTime` does not start a new window: with prior
accumulation 500 and weight 7 it returns accumulated 507 and the old
window start, where the claim demands accumulated 7 and window start
60000. -/
theorem window_rollover_cex :
    (60000 ≤ (60000:Int) - 0)
    ∧ Rev0.getSleepTime ⟨500, 0⟩ 60000 7 = (0, ⟨507, 0⟩)
    ∧ ((507:Int) ≠ 7 ∧ (0:Int) ≠ 60000) := by decide

/-- C5 (amended): `getSleepTimeAndUpdateAccumulatedWeight` starts a new
window — accumulated set to exactly w, window start set to now, hint 0 —
whenever the elapsed time is at least the window length, regardless of
prior accumulation; `Rev0.getSleepTime` does so only when the elapsed
time strictly exceeds the window length, and at elapsed time exactly
60000 ms it still treats the window as current. -/
theorem window_rollover (wc : WCState) (now w : Int) (hw : 0 < w) :
    (60000 ≤ now - wc.timestampOfZeroOutWeightMS →
        getSleepTimeAndUpdateAccumulatedWeight wc now w = (0, ⟨w, now⟩))
    ∧ (60000 < now - wc.timestampOfZeroOutWeightMS →
        Rev0.getSleepTime wc now w = (0, ⟨w, now⟩)) :=
  ⟨fun hel => reserve_reset wc now w hel, fun hel => reserve_reset0 wc now w hel⟩

/-- Witness for C5: after 70000 ms both controllers reset to the new
weight 7 and the new window start. -/
theorem window_rollover_witness :
    getSleepTimeAndUpdateAccumulatedWeight ⟨500, 0⟩ 70000 7 = (0, ⟨7, 70000⟩)
    ∧ Rev0.getSleepTime ⟨500, 0⟩ 70000 7 = (0, ⟨7, 70000⟩) := by
  have h := window_rollover ⟨500, 0⟩ 70000 7 (by decide)
  exact ⟨h.1 (by decide), h.2 (by decide)⟩

/-- C8: for every controller state and positive weight, the reserve
operation of both revisions is a total function of the state (the
embedding is a plain function, mirroring the Go method, which has no
error return and no statement that can fail) and the returned sleep hint
is never negative. -/
theorem reserve_total_and_nonneg (wc : WCState) (now w : Int) (hw : 0 < w) :
    0 ≤ (getSleepTimeAndUpdateAccumulatedWeight wc now w).1
    ∧ 0 ≤ (Rev0.getSleepTime wc now w).1 := by
  constructor
  · unfold getSleepTimeAndUpdateAccumulatedWeight
    split_ifs <;> simp <;> omega
  · unfold Rev0.getSleepTime Rev0.weightLimitPerMinute Rev0.sessionDurationMS
    split_ifs <;> simp <;> omega

/-- Witness for C8 at a fresh controller and weight 1. -/
theorem reserve_total_and_nonneg_witness :
    0 ≤ (getSleepTimeAndUpdateAccumulatedWeight ⟨0, 0⟩ 0 1).1
    ∧ 0 ≤ (Rev0.getSleepTime ⟨0, 0⟩ 0 1).1 :=
  reserve_total_and_nonneg ⟨0, 0⟩ 0 1 (by decide)

/-! ### Claim theorems for the request gateway -/

/-- C2 counterexample: the bncclient.go revision of `makeApiRequest`, with
an exhausted budget (accumulated 1000, window fresh, so the controller
returns the positive hint 60000), still invokes the transport exactly
once — it sleeps for the hint instead of returning a warning, so the
claim that the transport receives zero invocations is false. -/
theorem no_transport_cex :
    0 < (getSleepTimeAndUpdateAccumulatedWeight ⟨1000, 0⟩ 0 1).1
    ∧ (makeApiRequest ⟨1000, 0⟩ 0 1
        (TransportResult.response 200 none [])).2.2.transportCalls = 1
    ∧ (makeApiRequest ⟨1000, 0⟩ 0 1
        (TransportResult.response 200 none [])).2.2.sleptMS = 60000 := by decide

/-- C2 (amended): in the unnamed/part_000 revision, whenever the sleep
hint is positive `makeApiRequest` returns the budget warning carrying
that hint and the transport is invoked zero times; the bncclient.go
revision instead always invokes the transport exactly once, after
sleeping internally for the hint. -/
theorem no_transport_on_exhausted_budget :
    (∀ (wc : WCState) (now w : Int) (t : TransportResult),
        0 < (Rev0.getSleepTime wc now w).1 →
          Rev0.makeApiRequest wc now w t
            = (Rev0.ApiResult.budgetWarning (Rev0.getSleepTime wc now w).1,
               (Rev0.getSleepTime wc now w).2, 0))
    ∧ (∀ (wc : WCState) (now w : Int) (t : TransportResult),
        (makeApiRequest wc now w t).2.2.transportCalls = 1
        ∧ (makeApiRequest wc now w t).2.2.sleptMS
            = (getSleepTimeAndUpdateAccumulatedWeight wc now w).1) := by
  constructor
  · intro wc now w t h
    unfold Rev0.makeApiRequest
    rw [if_pos h]
  · intro wc now w t
    cases t <;> simp [makeApiRequest]

/-- Witness for C2: a part_000 gateway at accumulated weight 1300 returns
the budget warning without touching the transport. -/
theorem no_transport_witness :
    Rev0.makeApiRequest ⟨1300, 0⟩ 0 1 TransportResult.failure
      = (Rev0.ApiResult.budgetWarning (Rev0.getSleepTime ⟨1300, 0⟩ 0 1).1,
         (Rev0.getSleepTime ⟨1300, 0⟩ 0 1).2, 0) :=
  no_transport_on_exhausted_budget.1 ⟨1300, 0⟩ 0 1 TransportResult.failure (by decide)

/-- C3 counterexample: a 403 response is not turned into a warning with a
fixed cooldown, and a 500 response is not turned into an error: both
revisions return the plain body (part_000 with warning and error nil,
bncclient.go with the raw status code and nil error). -/
theorem classification_cex :
    (Rev0.makeApiRequest ⟨0, 0⟩ 0 1 (TransportResult.response 403 none [])).1
      = Rev0.ApiResult.ok [] 0
    ∧ (Rev0.makeApiRequest ⟨0, 0⟩ 0 1 (TransportResult.response 500 none [])).1
      = Rev0.ApiResult.ok [] 0
    ∧ (makeApiRequest ⟨0, 0⟩ 0 1 (TransportResult.response 403 none [])).1
      = ApiResponse.ok [] 403 0 := by decide

/-- C3 (amended): the only status-based classification in the code is the
429 handling of unnamed/part_000: when the budget is clear, a 429
response with a positive Retry-After header yields a rate-limit warning
carrying the header value converted to milliseconds; every other
response — 200, 403, 500, or 429 without a positive Retry-After — is
returned as the raw body bytes with nil warning and nil error, and the
bncclient.go revision returns body, status code and Retry-After
unclassified for every status. -/
theorem response_classification :
    (∀ (wc : WCState) (now w : Int) (hdrVal : Nat) (body : List UInt8),
        (Rev0.getSleepTime wc now w).1 ≤ 0 → 0 < hdrVal →
          (Rev0.makeApiRequest wc now w
              (TransportResult.response 429 (some hdrVal) body)).1
            = Rev0.ApiResult.rateLimitWarning ((hdrVal : Int) * 1000))
    ∧ (∀ (wc : WCState) (now w : Int) (status : Nat) (hdr : Option Nat)
          (body : List UInt8),
        (Rev0.getSleepTime wc now w).1 ≤ 0 → ¬(status = 429 ∧ 0 < hdr.getD 0) →
          (Rev0.makeApiRequest wc now w
              (TransportResult.response status hdr body)).1
            = Rev0.ApiResult.ok body ((hdr.getD 0 : Int) * 1000))
    ∧ (∀ (wc : WCState) (now w : Int) (status : Nat) (hdr : Option Nat)
          (body : List UInt8),
        (makeApiRequest wc now w (TransportResult.response status hdr body)).1
          = ApiResponse.ok body status (hdr.getD 0)) := by
  refine ⟨?_, ?_, ?_⟩
  · intro wc now w hdrVal body hs hv
    simp only [Rev0.makeApiRequest, Option.getD_some]
    split_ifs with h1 h2
    · exfalso; omega
    · rfl
    · exact (h2 ⟨trivial, by omega⟩).elim
  · intro wc now w status hdr body hs hcond
    simp only [Rev0.makeApiRequest]
    split_ifs with h1 h2
    · exfalso; omega
    · exact absurd ⟨h2.1, by have := h2.2; omega⟩ hcond
    · rfl
  · intro wc now w status hdr body
    rfl

/-- Witness for C3: a 429 with Retry-After 5 yields the 5000 ms warning,
and a 200 response passes its body through in both revisions. -/
theorem response_classification_witness :
    (Rev0.makeApiRequest ⟨0, 0⟩ 0 1
        (TransportResult.response 429 (some 5) [])).1
      = Rev0.ApiResult.rateLimitWarning (((5:Nat) : Int) * 1000)
    ∧ (makeApiRequest ⟨0, 0⟩ 0 1 (TransportResult.response 200 none [])).1
      = ApiResponse.ok [] 200 0 := by
  constructor
  · exact response_classification.1 ⟨0, 0⟩ 0 1 5 [] (by decide) (by decide)
  · exact response_classification.2.2 ⟨0, 0⟩ 0 1 200 none []

/-- C7 counterexample: on a transport failure the bncclient.go revision
returns a non-nil error with zeroed components (a fatal result, not a
warning with a backoff — its return shape has no warning at all), and the
part_000 revision dereferences the nil response in the deferred
`Body.Close` and panics. -/
theorem transport_failure_cex :
    (makeApiRequest ⟨0, 0⟩ 0 1 TransportResult.failure).1
      = ApiResponse.transportError
    ∧ (Rev0.makeApiRequest ⟨0, 0⟩ 0 1 TransportResult.failure).1
      = Rev0.ApiResult.panicked := by decide

/-- C7 (amended): a transport failure is never classified as a retryable
warning: the bncclient.go revision propagates it as the error return for
every controller state, and the part_000 revision, whenever the budget is
clear, hits the nil-response dereference in its deferred body close. -/
theorem transport_failure_classification :
    (∀ (wc : WCState) (now w : Int),
        (makeApiRequest wc now w TransportResult.failure).1
          = ApiResponse.transportError)
    ∧ (∀ (wc : WCState) (now w : Int),
        (Rev0.getSleepTime wc now w).1 ≤ 0 →
          (Rev0.makeApiRequest wc now w TransportResult.failure).1
            = Rev0.ApiResult.panicked) := by
  constructor
  · intro wc now w
    rfl
  · intro wc now w hs
    unfold Rev0.makeApiRequest
    rw [if_neg (by omega)]

/-- Witness for C7: a fresh part_000 gateway panics on a failing
transport call. -/
theorem transport_failure_witness :
    (Rev0.makeApiRequest ⟨0, 0⟩ 5 1 TransportResult.failure).1
      = Rev0.ApiResult.panicked :=
  transport_failure_classification.2 ⟨0, 0⟩ 5 1 (by decide)

/-- C6: `tryParseResponse` returns no error when the unmarshal into the
target structure succeeds; when it fails and the body matches the
`{code, msg}` envelope, the result carries exactly that code and message;
and when both attempts fail, the original unmarshal failure is returned,
never replaced by the envelope attempt. -/
theorem parse_fallback :
    (∀ envelopeAttempt, tryParseResponse none envelopeAttempt
        = ParseResult.success)
    ∧ (∀ (e : String) (code : Int) (msg : String),
        tryParseResponse (some e) (some ⟨code, msg⟩)
          = ParseResult.binanceApiError code msg)
    ∧ (∀ e : String, tryParseResponse (some e) none
        = ParseResult.originalFailure e) :=
  ⟨fun _ => rfl, fun _ _ _ => rfl, fun _ => rfl⟩

/-! ### Claim theorems for the endpoint getters -/

set_option maxHeartbeats 1000000 in
/-- C9: `GetOrderBook` panics — producing no reserve call and no transport
request — exactly on limit values outside the allowed set, and for
allowed values it proceeds with weight 5 for limit 500, 10 for 1000, 50
for 5000 and 1 otherwise; the `inArray` validation of the part_001
revision accepts exactly the limits present in `limitToWeightMap`. -/
theorem getOrderBook_limit_validation (symbol : String) (limit : Int) :
    (getOrderBookPrepare symbol limit
      = if limit = -1 ∨ limit = 5 ∨ limit = 10 ∨ limit = 20 ∨ limit = 50
           ∨ limit = 100 ∨ limit = 500 ∨ limit = 1000 ∨ limit = 5000 then
          GetOrderBookCall.request (getOrderBookQueryParams symbol limit)
            (if limit = 500 then 5 else if limit = 1000 then 10
             else if limit = 5000 then 50 else 1)
        else GetOrderBookCall.panicked)
    ∧ (Rev1.inArray limit Rev1.allowedLimits = true
        ↔ (limitToWeightMap limit).isSome = true) := by
  constructor
  · unfold getOrderBookPrepare limitToWeightMap
    split_ifs <;> simp_all
  · unfold Rev1.inArray Rev1.allowedLimits limitToWeightMap
    simp only [List.any_cons, List.any_nil, Bool.or_eq_true, beq_iff_eq,
      Bool.or_eq_false_iff]
    split_ifs <;> simp_all <;> omega

/-- C10: every getter always includes the symbol parameter; each optional
numeric parameter is included, with its decimal string value, exactly
when it is nonnegative, and a negative value leaves no pair with that key
in the query parameters.  Stated for the parameter lists built by
`GetRecentTrades`, `GetHistoricalTrades`, `GetAggregatedTrades` and
`GetOrderBook`. -/
theorem optional_params_policy (symbol : String) :
    (∀ limit : Int,
        ("symbol", symbol) ∈ getRecentTradesQueryParams symbol limit
        ∧ (0 ≤ limit →
            ("limit", toString limit) ∈ getRecentTradesQueryParams symbol limit)
        ∧ (limit < 0 →
            ∀ v, ("limit", v) ∉ getRecentTradesQueryParams symbol limit))
    ∧ (∀ limit fromId : Int,
        ("symbol", symbol) ∈ getHistoricalTradesQueryParams symbol limit fromId
        ∧ (0 ≤ limit → ("limit", toString limit)
            ∈ getHistoricalTradesQueryParams symbol limit fromId)
        ∧ (limit < 0 → ∀ v, ("limit", v)
            ∉ getHistoricalTradesQueryParams symbol limit fromId)
        ∧ (0 ≤ fromId → ("fromId", toString fromId)
            ∈ getHistoricalTradesQueryParams symbol limit fromId)
        ∧ (fromId < 0 → ∀ v, ("fromId", v)
            ∉ getHistoricalTradesQueryParams symbol limit fromId))
    ∧ (∀ fromId startTimeMS endTimeMS limit : Int,
        ("symbol", symbol)
          ∈ getAggregatedTradesQueryParams symbol fromId startTimeMS endTimeMS limit
        ∧ (0 ≤ startTimeMS → ("startTime", toString startTimeMS)
            ∈ getAggregatedTradesQueryParams symbol fromId startTimeMS endTimeMS limit)
        ∧ (startTimeMS < 0 → ∀ v, ("startTime", v)
            ∉ getAggregatedTradesQueryParams symbol fromId startTimeMS endTimeMS limit)
        ∧ (0 ≤ endTimeMS → ("endTime", toString endTimeMS)
            ∈ getAggregatedTradesQueryParams symbol fromId startTimeMS endTimeMS limit)
        ∧ (endTimeMS < 0 → ∀ v, ("endTime", v)
            ∉ getAggregatedTradesQueryParams symbol fromId startTimeMS endTimeMS limit)
        ∧ (0 ≤ fromId → ("fromId", toString fromId)
            ∈ getAggregatedTradesQueryParams symbol fromId startTimeMS endTimeMS limit)
        ∧ (fromId < 0 → ∀ v, ("fromId", v)
            ∉ getAggregatedTradesQueryParams symbol fromId startTimeMS endTimeMS limit)
        ∧ (0 ≤ limit → ("limit", toString limit)
            ∈ getAggregatedTradesQueryParams symbol fromId startTimeMS endTimeMS limit)
        ∧ (limit < 0 → ∀ v, ("limit", v)
            ∉ getAggregatedTradesQueryParams symbol fromId startTimeMS endTimeMS limit))
    ∧ (∀ limit : Int,
        ("symbol", symbol) ∈ getOrderBookQueryParams symbol limit
        ∧ (0 ≤ limit →
            ("limit", toString limit) ∈ getOrderBookQueryParams symbol limit)
        ∧ (limit < 0 →
            ∀ v, ("limit", v) ∉ getOrderBookQueryParams symbol limit)) := by
  refine ⟨?_, ?_, ?_, ?_⟩ <;> intros <;>
    simp [getRecentTradesQueryParams, getHistoricalTradesQueryParams,
      getAggregatedTradesQueryParams, getOrderBookQueryParams]

end BncClient
